import Mathlib

/-!
Shallow embedding of the clip-extraction pipeline of `src/bot.py`
(a Telegram video-clipping bot), together with theorems settling the
frozen claims about its specification.

Conventions of the embedding:
* Python exceptions become `Option`/`Except` failures and an error type
  `ClipErr`; an error constructor records which Python error was raised.
* Machine side effects (provider query, external trimming process,
  Telegram transport calls, temporary-directory management) are recorded
  as an explicit event trace (`Ev`); their outcomes are supplied by an
  environment record `Env`.
* Strings are modelled over their ASCII content, as structurally
  recursive functions on `List Char`, so that every definition reduces
  on concrete input; the regular-expression character classes of the
  source are modelled by the corresponding ASCII predicates.
-/

set_option linter.unusedVariables false

namespace Bot

/-- Whitespace, as used both by Python's argumentless `str.split` / `str.strip`
and by the regex whitespace class used in `CLIP_RE` (ASCII fragment). -/
def isWs (c : Char) : Bool :=
  c = ' ' || c = '\t' || c = '\n' || c = '\r' || c = Char.ofNat 11 || c = Char.ofNat 12

/-- Strip leading and trailing whitespace (Python `str.strip()`, ASCII). -/
def pyStrip (l : List Char) : List Char :=
  ((l.dropWhile isWs).reverse.dropWhile isWs).reverse

/-- Numeric value of a run of decimal digits. -/
def digitsToNat (l : List Char) : Nat :=
  l.foldl (fun n c => n * 10 + (c.toNat - 48)) 0

/-- Continuation of `digitsGrouped` after at least one digit has been
read: each further character is a digit, or a single underscore that is
immediately followed by a digit (PEP 515 grouping; `"1__0"` and a
trailing `"1_"` are rejected). -/
def digitTail : List Char → Bool
  | [] => true
  | '_' :: rest =>
    match rest with
    | c :: cs => c.isDigit && digitTail cs
    | [] => false
  | c :: cs => c.isDigit && digitTail cs

/-- A nonempty decimal-digit run, possibly grouped with single
underscores strictly between digits, as Python's `int(str)` accepts
(PEP 515): `digit (underscore? digit)*`. -/
def digitsGrouped : List Char → Bool
  | [] => false
  | c :: cs => c.isDigit && digitTail cs

/-- Model of Python's `int(str)` conversion on ASCII input: surrounding
whitespace is ignored, one optional sign is allowed, and the rest must
be a nonempty run of decimal digits, possibly grouped with single
underscores between digits (PEP 515, so `int("1_0") = 10` while
`"_1"`, `"1_"` and `"1__0"` are rejected); underscores are dropped when
computing the value.  `none` models `ValueError`. -/
def pyInt (s : String) : Option Int :=
  match pyStrip s.toList with
  | '-' :: r =>
    if digitsGrouped r then some (-(digitsToNat (r.filter (fun c => !(c = '_'))) : Int))
    else none
  | '+' :: r =>
    if digitsGrouped r then some (digitsToNat (r.filter (fun c => !(c = '_'))) : Int)
    else none
  | t =>
    if digitsGrouped t then some (digitsToNat (t.filter (fun c => !(c = '_'))) : Int)
    else none

/-- Python `s.split(":")` on the character list: split at every colon,
keeping empty components (so the empty string yields one empty component). -/
def splitCols : List Char → List (List Char)
  | [] => [[]]
  | c :: cs =>
    if c = ':' then [] :: splitCols cs
    else
      match splitCols cs with
      | h :: t => (c :: h) :: t
      | [] => [[c]]

/-- Model of the list comprehension `[int(p) for p in ts.split(":")]`:
convert each component in order, failing on the first `ValueError`. -/
def mapIntParts : List (List Char) → Option (List Int)
  | [] => some []
  | p :: ps =>
    match pyInt (String.mk p), mapIntParts ps with
    | some n, some ns => some (n :: ns)
    | _, _ => none

/-- The padding-and-unpacking stage of `hms_to_sec` (src/bot.py lines
38-41): the `while` loop inserts zeros at the front until three
components are reached, then `h, m, s = parts` unpacks (raising
`ValueError`, i.e. `none`, when more than three components are present)
and the result is `h*3600 + m*60 + s`. -/
def unpack3 (parts : List Int) : Option Int :=
  match List.replicate (3 - parts.length) 0 ++ parts with
  | [h, m, s] => some (h * 3600 + m * 60 + s)
  | _ => none

/-- Embedding of `hms_to_sec` (src/bot.py lines 36-41): split on `:`,
convert every component with `int`, then pad and unpack. -/
def hms_to_sec (ts : String) : Option Int :=
  match mapIntParts (splitCols ts.toList) with
  | none => none
  | some parts => unpack3 parts

example : hms_to_sec "0:30" = some 30 := by decide
example : hms_to_sec "1:15" = some 75 := by decide
example : hms_to_sec "1:02:03" = some 3723 := by decide
example : hms_to_sec "a:30" = none := by decide
example : hms_to_sec "" = none := by decide
example : hms_to_sec "1:2:3:4" = none := by decide
example : hms_to_sec "-1:30" = some (-30) := by decide
example : hms_to_sec "1:99" = some 159 := by decide
example : hms_to_sec "1_0:30" = some 630 := by decide
example : pyInt "1_0" = some 10 ∧ pyInt "+1_0" = some 10 ∧ pyInt "-1_0" = some (-10) ∧
    pyInt "_1" = none ∧ pyInt "1_" = none ∧ pyInt "1__0" = none := by decide

/-- One entry of the provider's `formats` list, restricted to the fields
the code reads: `f.get("ext")`, `f.get("acodec")` (both may be absent in
the provider dictionary, hence `Option`) and `f["url"]`. -/
structure FormatEntry where
  ext : Option String
  acodec : Option String
  url : String
deriving DecidableEq, Repr

/-- The provider result `info`, restricted to the keys the code reads:
the optional top-level `"url"` and the `"formats"` list. -/
structure Info where
  url : Option String
  formats : List FormatEntry
deriving DecidableEq, Repr

/-- The predicate of the generator expression in src/bot.py line 52-53:
`f.get("ext") == "mp4" and f.get("acodec") != "none"` (an absent
`acodec` key yields Python `None`, which is `!= "none"`). -/
def fmtOk (f : FormatEntry) : Bool :=
  f.ext = some "mp4" && f.acodec ≠ some "none"

/-- Error kinds: each constructor records a Python exception raised by
the pipeline (the names follow the specification's error taxonomy). -/
inductive ClipErr
  | resolutionError : ClipErr
  | noPlayableStream : ClipErr
  | malformedTimestamp : ClipErr
  | invalidRange : ClipErr
  | extractionFailed : Nat → ClipErr
  | deliveryFailed : ClipErr
deriving DecidableEq, Repr

/-- Embedding of the stream-URL selection (src/bot.py lines 50-54):
`info.get("url", next(f["url"] for f in info["formats"] if ...))`.
Python evaluates the default argument of `dict.get` BEFORE the call, so
the first qualifying format is computed first; when no format qualifies,
`next` raises `StopIteration` (`noPlayableStream`) even when the
top-level `"url"` key is present.  Otherwise `get` returns the top-level
url when present, else the computed default. -/
def getStreamUrl (info : Info) : Except ClipErr String :=
  match info.formats.find? fmtOk with
  | none => .error .noPlayableStream
  | some f => .ok (info.url.getD f.url)

/-- Two-digit zero-padded rendering of a value in `[0, 60)`. -/
def two (n : Int) : String :=
  if n < 10 then "0" ++ toString n else toString n

/-- The `H:MM:SS` part of Python `str(datetime.timedelta(seconds=n))`:
hours without padding, minutes and seconds zero-padded to two digits
(`Int` division/modulus are Euclidean here, matching Python's floor
semantics for these positive divisors). -/
def hmsPart (n : Int) : String :=
  toString ((n % 86400) / 3600) ++ ":" ++ two (((n % 86400) % 3600) / 60) ++ ":" ++
    two ((n % 86400) % 60)

/-- Model of Python `str(datetime.timedelta(seconds=n))`: `H:MM:SS`
below one day, prefixed with `D day, ` / `D days, ` otherwise (the
singular form is used exactly when the day count has absolute value
one). -/
def timedeltaStr (n : Int) : String :=
  if n / 86400 = 0 then hmsPart n
  else if n / 86400 = 1 ∨ n / 86400 = -1 then
    toString (n / 86400) ++ " day, " ++ hmsPart n
  else toString (n / 86400) ++ " days, " ++ hmsPart n

example : timedeltaStr 30 = "0:00:30" := by decide
example : timedeltaStr 3723 = "1:02:03" := by decide
example : timedeltaStr 86400 = "1 day, 0:00:00" := by decide

/-- The argument vector passed to `subprocess.run` (src/bot.py lines
60-66), for seek position `s0`, end position `s1`, resolved stream URL
and destination path; `bin` is the ffmpeg executable path resolved at
startup by `get_ffmpeg_exe()`. -/
def ffmpegArgs (bin : String) (s0 s1 : Int) (stream out : String) : List String :=
  [bin, "-hide_banner", "-loglevel", "error",
   "-ss", timedeltaStr s0, "-i", stream,
   "-t", toString (s1 - s0), "-c", "copy",
   "-avoid_negative_ts", "make_zero", out]

/-- Events recorded by a run of the pipeline, in program order. -/
inductive Ev
  | replyUsage : Ev
  | replyMismatch : Ev
  | noteClipping : Ev
  | wsCreate : Ev
  | resolverCall : Ev
  | ffmpegRun : List String → Ev
  | deliver : Bool → Ev
  | wsDestroy : Ev
  | noteFailed : ClipErr → Ev
  | noteDelete : Ev
deriving DecidableEq, Repr

/-- Environment supplying the outcomes of the external collaborators:
the provider's answer (`none` models a raised provider/network error),
the exit status of the external trimming process, whether the delivery
call to the transport succeeds, and the ffmpeg executable path. -/
structure Env where
  provider : Option Info
  ffmpegExit : Nat
  deliveryOk : Bool
  ffmpegBin : String
deriving DecidableEq, Repr

/-- The tail of `clip_youtube` once a stream URL has been selected
(src/bot.py lines 56-66): timestamp conversion of both tokens, range
validation (`ValueError`, i.e. `invalidRange`, when `s1 <= s0`), then
the blocking `subprocess.run` with `check=True` (`CalledProcessError`,
i.e. `extractionFailed`, on nonzero exit). -/
def clip_after_resolve (t1 t2 outfile : String) (env : Env) (stream : String) :
    List Ev × Option ClipErr :=
  match hms_to_sec t1, hms_to_sec t2 with
  | some s0, some s1 =>
    if s1 ≤ s0 then ([.resolverCall], some .invalidRange)
    else
      let args := ffmpegArgs env.ffmpegBin s0 s1 stream outfile
      if env.ffmpegExit = 0 then ([.resolverCall, .ffmpegRun args], none)
      else ([.resolverCall, .ffmpegRun args], some (.extractionFailed env.ffmpegExit))
  | _, _ => ([.resolverCall], some .malformedTimestamp)

/-- Embedding of `clip_youtube` (src/bot.py lines 44-66) as a trace of
events plus an optional raised error.  Order of operations, as in the
source: provider query (`extract_info`), stream-URL selection, then the
timestamp/range/subprocess tail of `clip_after_resolve`. -/
def clip_youtube (url t1 t2 outfile : String) (env : Env) : List Ev × Option ClipErr :=
  match env.provider with
  | none => ([.resolverCall], some .resolutionError)
  | some info =>
    match getStreamUrl info with
    | .error e => ([.resolverCall], some e)
    | .ok stream => clip_after_resolve t1 t2 outfile env stream

/-- Python `text.split(maxsplit=m)` (argumentless separator): skip
leading whitespace; while splits remain, emit the maximal non-whitespace
token; once `m` splits have been made, the remainder (leading whitespace
stripped) is the final chunk.  `fuel` bounds the recursion and is chosen
large enough to never run out. -/
def pySplitAux : Nat → Nat → List Char → List (List Char)
  | 0, _, _ => []
  | _ + 1, m, l =>
    let l1 := l.dropWhile isWs
    if l1.isEmpty then []
    else
      match m with
      | 0 => [l1]
      | k + 1 =>
        l1.takeWhile (fun c => !(isWs c)) ::
          pySplitAux (l1.length) k (l1.dropWhile (fun c => !(isWs c)))

/-- `message_text.split(maxsplit=3)` from src/bot.py line 70. -/
def pySplit3 (s : String) : List (List Char) :=
  pySplitAux (s.toList.length + 1) 3 s.toList

/-- Whether the maximal non-whitespace token `u` matches the anchored URL
group `https?://\S+` of `CLIP_RE`: the literal scheme prefix followed by
at least one further non-whitespace character.  (Because the token is a
maximal non-whitespace run and the regex continues with a whitespace
class, greedy matching without backtracking is exact here.) -/
def urlOk (u : List Char) : Bool :=
  ("http://".toList.isPrefixOf u && decide (7 < u.length)) ||
  ("https://".toList.isPrefixOf u && decide (8 < u.length))

/-- Match up to `k` repetitions of the regex group `(?::\d{1,2})` of the
time pattern, returning the unconsumed remainder; `none` when the match
is provably dead (a colon followed by three or more digits leaves a
digit that can satisfy neither a further group, nor the following
whitespace class, nor the end anchor, on any backtracking path). -/
def timeTail : Nat → List Char → Option (List Char)
  | 0, rest => some rest
  | k + 1, rest =>
    match rest with
    | ':' :: r1 =>
      let ds := r1.takeWhile Char.isDigit
      if ds.length = 1 || ds.length = 2 then timeTail k (r1.dropWhile Char.isDigit)
      else if ds.length = 0 then some rest
      else none
    | _ => some rest

/-- Match the time group `\d+(?::\d{1,2}){0,2}` of `CLIP_RE` at the head
of `l`, returning the unconsumed remainder. -/
def matchTime (l : List Char) : Option (List Char) :=
  let ds := l.takeWhile Char.isDigit
  if ds.isEmpty then none
  else timeTail 2 (l.dropWhile Char.isDigit)

/-- Embedding of `CLIP_RE.match` (src/bot.py lines 29-33) on the joined
argument string: the anchored pattern
`^\s*(url)\s+(t1)\s+(t2)\s*$` with the groups above.  Returns the three
captured groups on success.  The character classes involved are pairwise
disjoint, so the greedy left-to-right match implemented here is
equivalent to the backtracking regex. -/
def clipMatch (s : String) : Option (String × String × String) :=
  let l0 := s.toList.dropWhile isWs
  let u := l0.takeWhile (fun c => !(isWs c))
  let r1 := l0.dropWhile (fun c => !(isWs c))
  if !(urlOk u) then none
  else
    let r2 := r1.dropWhile isWs
    if r2.length = r1.length then none
    else
      match matchTime r2 with
      | none => none
      | some r3 =>
        let t1 := r2.take (r2.length - r3.length)
        let r4 := r3.dropWhile isWs
        if r4.length = r3.length then none
        else
          match matchTime r4 with
          | none => none
          | some r5 =>
            let t2 := r4.take (r4.length - r5.length)
            if (r5.dropWhile isWs).isEmpty then
              some (String.mk u, String.mk t1, String.mk t2)
            else none

/-- Python `" ".join(parts)` on character lists. -/
def joinSp : List (List Char) → List Char
  | [] => []
  | [x] => x
  | x :: xs => x ++ ' ' :: joinSp xs

/-- The two user-visible parse-failure replies of `_parse_or_reply`:
the usage message (too few tokens) and the could-not-parse message
(tokens present but `CLIP_RE` does not match). -/
inductive ParseFail
  | usage : ParseFail
  | mismatch : ParseFail
deriving DecidableEq, Repr

/-- Embedding of `_parse_or_reply` (src/bot.py lines 69-78): drop the
command keyword from `text.split(maxsplit=3)`, check arity first (fewer
than three remaining tokens is the usage failure), then match `CLIP_RE`
against the space-rejoined tokens (failure to match is the mismatch
reply); on success return the three captured groups. -/
def parse_or_reply (text : String) : ParseFail ⊕ (String × String × String) :=
  let parts := (pySplit3 text).drop 1
  if parts.length < 3 then .inl .usage
  else
    match clipMatch (String.mk (joinSp parts)) with
    | none => .inl .mismatch
    | some r => .inr r

/-- The destination path `Path(td) / "clip.mp4"` inside the workspace. -/
def outPath : String := "clip.mp4"

/-- Closing events of the `with`/`try` block given the outcome of
`clip_youtube`: on a raised error the context manager destroys the
workspace and the `except` arm edits the note to a failure message; on
normal return, `reply_video` is attempted inside the `with` block, the
workspace is destroyed on exiting it, and then either the `else` arm
deletes the note (delivery succeeded) or the `except` arm edits it to a
failure message (delivery raised). -/
def tailEvents (err : Option ClipErr) (dOk : Bool) : List Ev :=
  match err with
  | some e => [.wsDestroy, .noteFailed e]
  | none =>
    if dOk then [.deliver true, .wsDestroy, .noteDelete]
    else [.deliver false, .wsDestroy, .noteFailed .deliveryFailed]

/-- Embedding of the handler `h_clip` (src/bot.py lines 88-109 in async
mode, identically structured lines 118-137 in sync mode) as the event
trace of one request: parse (replying and stopping on parse failure),
send the progress note, enter the `TemporaryDirectory` context
(`wsCreate`), run `clip_youtube`, then close out via `tailEvents`; the
`except` arm edits the note to a failure message for ANY exception
raised inside the `try`, including a delivery failure. -/
def h_clip (text : String) (env : Env) : List Ev :=
  match parse_or_reply text with
  | .inl .usage => [.replyUsage]
  | .inl .mismatch => [.replyMismatch]
  | .inr (url, t1, t2) =>
    let r := clip_youtube url t1 t2 outPath env
    .noteClipping :: .wsCreate :: r.1 ++ tailEvents r.2 env.deliveryOk

/-- Compact constructor for a format entry. -/
def mkFmt (e a : Option String) (u : String) : FormatEntry :=
  { ext := e, acodec := a, url := u }

/-- Compact constructor for a provider result. -/
def mkInfo (u : Option String) (fs : List FormatEntry) : Info :=
  { url := u, formats := fs }

/-- Compact constructor for an environment with the fixed executable
path `"ffmpeg"`. -/
def mkEnv (i : Option Info) (ec : Nat) (d : Bool) : Env :=
  { provider := i, ffmpegExit := ec, deliveryOk := d, ffmpegBin := "ffmpeg" }

/-- The second-offset value the specification prescribes for a list of
1-3 numeric components: left-pad with zeros to hours/minutes/seconds
and return `hours*3600 + minutes*60 + seconds`. -/
def specSecOf : List Int → Int
  | [s] => s
  | [m, s] => m * 60 + s
  | [h, m, s] => h * 3600 + m * 60 + s
  | _ => 0

/-- Whether a string consists of the time grammar of `CLIP_RE`
(`\d+(?::\d{1,2}){0,2}`) and nothing else: the standalone acceptor for
one timestamp token. -/
def timeOk (s : String) : Bool :=
  match matchTime s.toList with
  | some [] => true
  | _ => false

/-- Whether a character list is in `H:MM:SS` form: exactly three
colon-separated components, the first a nonempty digit run, the other
two exactly two digits each. -/
def isHMSL (l : List Char) : Bool :=
  match splitCols l with
  | [h, m, sec] =>
    (!h.isEmpty && h.all Char.isDigit) &&
    (m.length = 2 && m.all Char.isDigit) &&
    (sec.length = 2 && sec.all Char.isDigit)
  | _ => false

/-- Whether a string is in `H:MM:SS` form. -/
def isHMS (s : String) : Bool :=
  isHMSL s.toList

/- ### Helper lemmas -/

lemma mapIntParts_length {l : List (List Char)} {ns : List Int}
    (h : mapIntParts l = some ns) : ns.length = l.length := by
  induction l generalizing ns with
  | nil => simp [mapIntParts] at h; simp [← h]
  | cons p ps ih =>
    unfold mapIntParts at h
    rcases hp : pyInt (String.mk p) with _ | n <;> rw [hp] at h
    · exact absurd h (by simp)
    · rcases hps : mapIntParts ps with _ | ms <;> rw [hps] at h
      · exact absurd h (by simp)
      · obtain rfl : n :: ms = ns := by simpa using h
        simp [ih hps]

/- ### C6 -/

/-- C6: for every timestamp string of 1 to 3 colon-separated nonnegative
integer components, `hms_to_sec` left-pads missing high-order components
with zero, interprets the components as hours, minutes, seconds and
returns `hours*3600 + minutes*60 + seconds`; in particular
`hms_to_sec "0:30" = 30`, `hms_to_sec "1:15" = 75` and
`hms_to_sec "1:02:03" = 3723`. -/
theorem C6_hms_positional (ts : String) (ns : List Int)
    (hmap : mapIntParts (splitCols ts.toList) = some ns)
    (hpos : ∀ n ∈ ns, 0 ≤ n)
    (h1 : 1 ≤ ns.length) (h3 : ns.length ≤ 3) :
    hms_to_sec ts = some (specSecOf ns) ∧
    hms_to_sec "0:30" = some 30 ∧
    hms_to_sec "1:15" = some 75 ∧
    hms_to_sec "1:02:03" = some 3723 := by
  refine ⟨?_, by decide, by decide, by decide⟩
  unfold hms_to_sec
  rw [hmap]
  show unpack3 ns = some (specSecOf ns)
  rcases ns with _ | ⟨a, _ | ⟨b, _ | ⟨c, _ | ⟨d, t⟩⟩⟩⟩
  · simp at h1
  · simp [unpack3, specSecOf, List.replicate]
  · simp [unpack3, specSecOf, List.replicate]
  · simp [unpack3, specSecOf, List.replicate]
  · simp at h3

/-- Closed witness for `C6_hms_positional` at the input `"1:02:03"`. -/
theorem C6_hms_positional_witness :
    hms_to_sec "1:02:03" = some (specSecOf [1, 2, 3]) ∧
    hms_to_sec "0:30" = some 30 ∧
    hms_to_sec "1:15" = some 75 ∧
    hms_to_sec "1:02:03" = some 3723 :=
  C6_hms_positional "1:02:03" [1, 2, 3] (by decide) (by decide) (by decide) (by decide)

/- ### C7 -/

/-- C7 counterexample: the claim states that `hms_to_sec` fails whenever
some colon-separated component is not a nonnegative integer, but the
component `"-1"` (a negative integer, accepted by Python `int`) makes
`hms_to_sec "-1:30"` return a value, `-30`, instead of failing. -/
theorem C7_counterexample :
    pyInt "-1" = some (-1) ∧ (-1 : Int) < 0 ∧
    hms_to_sec "-1:30" = some (-30) := by decide

/-- C7 (amended): `hms_to_sec` fails for every input in which some
colon-separated component is rejected by the integer conversion (i.e.
is not an optionally signed decimal-digit run, possibly grouped with
single underscores between digits, up to surrounding whitespace), and
for every input with more than three components; in particular it fails
for `"a:30"`, `""` and `"1:2:3:4"`, and also for the malformed
underscore groupings `"1_:30"` and `"1__0:30"`, while the well-grouped
component `"1_0"` is accepted: `"1_0:30"` parses to 630. -/
theorem C7_hms_failures :
    (∀ ts : String, mapIntParts (splitCols ts.toList) = none → hms_to_sec ts = none) ∧
    (∀ ts : String, 3 < (splitCols ts.toList).length → hms_to_sec ts = none) ∧
    hms_to_sec "a:30" = none ∧
    hms_to_sec "" = none ∧
    hms_to_sec "1:2:3:4" = none ∧
    hms_to_sec "1_0:30" = some 630 ∧
    hms_to_sec "1_:30" = none ∧
    hms_to_sec "1__0:30" = none := by
  refine ⟨?_, ?_, by decide, by decide, by decide, by decide, by decide, by decide⟩
  · intro ts h
    unfold hms_to_sec
    rw [h]
  · intro ts h
    unfold hms_to_sec
    rcases hmap : mapIntParts (splitCols ts.toList) with _ | ns
    · rfl
    · have hlen : 3 < ns.length := by rw [mapIntParts_length hmap]; exact h
      show unpack3 ns = none
      unfold unpack3
      rcases ns with _ | ⟨a, _ | ⟨b, _ | ⟨c, _ | ⟨d, t⟩⟩⟩⟩
      · simp at hlen
      · simp at hlen
      · simp at hlen
      · simp at hlen
      · have h0 : 3 - (a :: b :: c :: d :: t).length = 0 := by
          simp only [List.length_cons]; omega
        rw [h0]
        rfl

/-- Closed witness for `C7_hms_failures` on the inputs `"b:2"` (component
rejected by integer conversion) and `"1:2:3:4:5"` (five components). -/
theorem C7_hms_failures_witness :
    hms_to_sec "b:2" = none ∧ hms_to_sec "1:2:3:4:5" = none :=
  ⟨C7_hms_failures.1 "b:2" (by decide), C7_hms_failures.2.1 "1:2:3:4:5" (by decide)⟩

/- ### C10 -/

/-- C10: the time grammar of `CLIP_RE` does not require minute or second
components to be below 60: every two-digit component 60-99 is accepted,
both as a second and as a minute component, and `hms_to_sec` sums the
components positionally; in particular `"1:99"` is accepted with value
159, so the distinct accepted strings `"1:99"` and `"2:39"` denote the
same second offset. -/
theorem C10_no_sexagesimal_bound :
    (∀ m : Nat, m < 100 → 60 ≤ m →
      timeOk ("1:" ++ toString m) = true ∧
      hms_to_sec ("1:" ++ toString m) = some (60 + (m : Int)) ∧
      timeOk ("1:" ++ toString m ++ ":05") = true ∧
      hms_to_sec ("1:" ++ toString m ++ ":05") = some (3600 + 60 * (m : Int) + 5)) ∧
    timeOk "1:99" = true ∧ hms_to_sec "1:99" = some 159 ∧
    timeOk "2:39" = true ∧ hms_to_sec "2:39" = some 159 ∧
    "1:99" ≠ "2:39" := by
  refine ⟨?_, by decide, by decide, by decide, by decide, by decide⟩
  decide

/-- Closed witness for `C10_no_sexagesimal_bound` at the component 99. -/
theorem C10_no_sexagesimal_bound_witness :
    timeOk "1:99" = true ∧ hms_to_sec "1:99" = some (60 + (99 : Int)) :=
  ⟨(C10_no_sexagesimal_bound.1 99 (by decide) (by decide)).1,
   (C10_no_sexagesimal_bound.1 99 (by decide) (by decide)).2.1⟩

/- ### C1 -/

/-- C1: the claim states that whenever the provider result carries a
top-level playable URL the resolver returns it regardless of the
contents of the formats list.  The code evaluates the default argument
of `dict.get` eagerly, so with a top-level URL `"X"` present but no
qualifying format candidate, `next` raises `StopIteration` and
resolution fails instead of returning `"X"`; the whole request then
fails before the trimming process is reached.  (When a qualifying
candidate does exist, the top-level URL is returned as the claim says,
third conjunct.) -/
theorem C1_eager_default_breaks_top_level_url :
    getStreamUrl (mkInfo (some "X") []) = .error .noPlayableStream ∧
    clip_youtube "https://x/y" "0:30" "1:00" outPath
        (mkEnv (some (mkInfo (some "X") [])) 0 true) =
      ([.resolverCall], some .noPlayableStream) ∧
    getStreamUrl (mkInfo (some "X") []) ≠ .ok "X" ∧
    getStreamUrl (mkInfo (some "X") [mkFmt (some "mp4") (some "aac") "A"]) = .ok "X" := by
  refine ⟨rfl, rfl, ?_, rfl⟩
  intro h
  rw [show getStreamUrl (mkInfo (some "X") []) = .error .noPlayableStream from rfl] at h
  exact Except.noConfusion h

/- ### C5 -/

lemma find?_first {α : Type} (p : α → Bool) :
    ∀ (l1 : List α) (f : α) (l2 : List α),
      (∀ g ∈ l1, p g = false) → p f = true →
      (l1 ++ f :: l2).find? p = some f := by
  intro l1 f l2 h1 hf
  induction l1 with
  | nil => simp [List.find?_cons, hf]
  | cons a t ih =>
    have ha : p a = false := h1 a (by simp)
    have ht : ∀ g ∈ t, p g = false := fun g hg => h1 g (by simp [hg])
    simp [List.find?_cons, ha, ih ht]

/-- C5: for every provider result with no top-level playable URL, the
resolver returns the URL of the first format candidate, in the given
order, whose extension is `"mp4"` and whose audio-codec field is not
`"none"`; when no candidate qualifies, resolution fails with the
no-playable-stream error (`StopIteration`) and the external trimming
process is never invoked (the trace of `clip_youtube` stops at the
provider query). -/
theorem C5_first_match_policy :
    (∀ (info : Info) (l1 : List FormatEntry) (f : FormatEntry) (l2 : List FormatEntry),
      info.url = none → info.formats = l1 ++ f :: l2 →
      (∀ g ∈ l1, fmtOk g = false) → fmtOk f = true →
      getStreamUrl info = .ok f.url) ∧
    (∀ info : Info, info.url = none → info.formats.find? fmtOk = none →
      getStreamUrl info = .error .noPlayableStream) ∧
    (∀ (url t1 t2 o : String) (env : Env) (info : Info),
      env.provider = some info → info.formats.find? fmtOk = none →
      clip_youtube url t1 t2 o env = ([.resolverCall], some .noPlayableStream) ∧
      ∀ a, Ev.ffmpegRun a ∉ (clip_youtube url t1 t2 o env).1) := by
  refine ⟨?_, ?_, ?_⟩
  · intro info l1 f l2 hu hfmt h1 hf
    unfold getStreamUrl
    rw [hfmt, find?_first fmtOk l1 f l2 h1 hf, hu]
    rfl
  · intro info hu hn
    unfold getStreamUrl
    rw [hn]
  · intro url t1 t2 o env info hp hn
    have he : getStreamUrl info = .error .noPlayableStream := by
      unfold getStreamUrl
      rw [hn]
    have hclip : clip_youtube url t1 t2 o env = ([.resolverCall], some .noPlayableStream) := by
      unfold clip_youtube
      rw [hp]
      show (match getStreamUrl info with
        | .error e => ([Ev.resolverCall], some e)
        | .ok stream => clip_after_resolve t1 t2 o env stream) =
        ([Ev.resolverCall], some ClipErr.noPlayableStream)
      rw [he]
    exact ⟨hclip, fun a => by rw [hclip]; simp⟩

/-- Closed witness for `C5_first_match_policy`: the specification's own
test vector (a `webm` entry followed by two qualifying `mp4` entries)
selects the first qualifying URL `"A"`; a provider result with no
qualifying entry fails with the no-playable-stream error and produces
no trimming-process invocation. -/
theorem C5_first_match_policy_witness :
    getStreamUrl (mkInfo none [mkFmt (some "webm") (some "aac") "W",
      mkFmt (some "mp4") (some "aac") "A", mkFmt (some "mp4") (some "aac") "B"]) = .ok "A" ∧
    clip_youtube "https://x/y" "0:30" "1:00" outPath
        (mkEnv (some (mkInfo none [mkFmt (some "webm") (some "aac") "W"])) 0 true) =
      ([.resolverCall], some .noPlayableStream) :=
  ⟨C5_first_match_policy.1
      (mkInfo none [mkFmt (some "webm") (some "aac") "W",
        mkFmt (some "mp4") (some "aac") "A", mkFmt (some "mp4") (some "aac") "B"])
      [mkFmt (some "webm") (some "aac") "W"]
      (mkFmt (some "mp4") (some "aac") "A")
      [mkFmt (some "mp4") (some "aac") "B"]
      rfl rfl (by decide) (by decide),
   (C5_first_match_policy.2.2 "https://x/y" "0:30" "1:00" outPath
      (mkEnv (some (mkInfo none [mkFmt (some "webm") (some "aac") "W"])) 0 true)
      (mkInfo none [mkFmt (some "webm") (some "aac") "W"])
      rfl (by decide)).1⟩

/- ### Orchestrator rewrite lemmas -/

lemma clip_youtube_resolved (url t1 t2 o : String) (env : Env) (info : Info) (stream : String)
    (hp : env.provider = some info) (hres : getStreamUrl info = .ok stream) :
    clip_youtube url t1 t2 o env = clip_after_resolve t1 t2 o env stream := by
  unfold clip_youtube
  rw [hp]
  show (match getStreamUrl info with
    | .error e => ([Ev.resolverCall], some e)
    | .ok stream => clip_after_resolve t1 t2 o env stream) =
    clip_after_resolve t1 t2 o env stream
  rw [hres]

lemma clip_after_resolve_range (t1 t2 o : String) (env : Env) (stream : String) (a b : Int)
    (h1 : hms_to_sec t1 = some a) (h2 : hms_to_sec t2 = some b) :
    clip_after_resolve t1 t2 o env stream =
      if b ≤ a then ([Ev.resolverCall], some ClipErr.invalidRange)
      else if env.ffmpegExit = 0 then
        ([Ev.resolverCall, Ev.ffmpegRun (ffmpegArgs env.ffmpegBin a b stream o)], none)
      else ([Ev.resolverCall, Ev.ffmpegRun (ffmpegArgs env.ffmpegBin a b stream o)],
        some (ClipErr.extractionFailed env.ffmpegExit)) := by
  unfold clip_after_resolve
  rw [h1, h2]

lemma h_clip_usage (text : String) (env : Env)
    (hp : parse_or_reply text = .inl .usage) : h_clip text env = [.replyUsage] := by
  unfold h_clip
  rw [hp]

lemma h_clip_mismatch (text : String) (env : Env)
    (hp : parse_or_reply text = .inl .mismatch) : h_clip text env = [.replyMismatch] := by
  unfold h_clip
  rw [hp]

lemma h_clip_inr (text u t1 t2 : String) (env : Env)
    (hp : parse_or_reply text = .inr (u, t1, t2)) :
    h_clip text env = .noteClipping :: .wsCreate ::
      (clip_youtube u t1 t2 outPath env).1 ++
      tailEvents (clip_youtube u t1 t2 outPath env).2 env.deliveryOk := by
  unfold h_clip
  rw [hp]

/-- The body of `clip_youtube` emits exactly the provider query, followed
by at most one trimming-process invocation. -/
lemma clip_youtube_events (url t1 t2 o : String) (env : Env) :
    (clip_youtube url t1 t2 o env).1 = [Ev.resolverCall] ∨
    ∃ a, (clip_youtube url t1 t2 o env).1 = [Ev.resolverCall, Ev.ffmpegRun a] := by
  unfold clip_youtube clip_after_resolve
  repeat' split
  all_goals first
    | (left; rfl)
    | (right; exact ⟨_, rfl⟩)

/-- `tailEvents` always destroys the workspace exactly once, surrounded
by workspace-free events. -/
lemma tailEvents_shape (err : Option ClipErr) (d : Bool) :
    ∃ w z, tailEvents err d = w ++ Ev.wsDestroy :: z ∧
      Ev.wsCreate ∉ w ++ z ∧ Ev.wsDestroy ∉ w ++ z := by
  rcases err with _ | e
  · rcases d with _ | _
    · exact ⟨[Ev.deliver false], [Ev.noteFailed ClipErr.deliveryFailed], rfl, by simp, by simp⟩
    · exact ⟨[Ev.deliver true], [Ev.noteDelete], rfl, by simp, by simp⟩
  · exact ⟨[], [Ev.noteFailed e], rfl, by simp, by simp⟩

/- ### C2 -/

/-- C2 counterexample: the claim states that a grammar-valid command
with end offset at or before the start offset fails with the invalid
range error BEFORE a workspace is created and BEFORE the resolver is
invoked.  On the concrete command `"/clip https://x/y 1:00 0:30"` the
recorded trace shows the workspace creation and the provider query
happening before the invalid-range failure. -/
theorem C2_counterexample :
    h_clip "/clip https://x/y 1:00 0:30"
        (mkEnv (some (mkInfo none [mkFmt (some "mp4") (some "aac") "S"])) 0 true) =
      [.noteClipping, .wsCreate, .resolverCall, .wsDestroy, .noteFailed .invalidRange] ∧
    Ev.wsCreate ∈ h_clip "/clip https://x/y 1:00 0:30"
        (mkEnv (some (mkInfo none [mkFmt (some "mp4") (some "aac") "S"])) 0 true) ∧
    Ev.resolverCall ∈ h_clip "/clip https://x/y 1:00 0:30"
        (mkEnv (some (mkInfo none [mkFmt (some "mp4") (some "aac") "S"])) 0 true) := by
  decide

/-- C2 (amended): for every command whose tokens parse and whose
converted end offset is at or before the start offset, and whose
resolution succeeds, the request fails with the invalid-range error
AFTER the workspace has been created and the resolver invoked, but
before the trimming process is invoked. -/
theorem C2_invalid_range_after_resolution (text u t1 t2 stream : String)
    (env : Env) (info : Info) (a b : Int)
    (hp : parse_or_reply text = .inr (u, t1, t2))
    (hprov : env.provider = some info)
    (hres : getStreamUrl info = .ok stream)
    (h1 : hms_to_sec t1 = some a) (h2 : hms_to_sec t2 = some b) (hle : b ≤ a) :
    h_clip text env =
      [.noteClipping, .wsCreate, .resolverCall, .wsDestroy, .noteFailed .invalidRange] ∧
    (∀ args, Ev.ffmpegRun args ∉ h_clip text env) := by
  have ht : h_clip text env =
      [.noteClipping, .wsCreate, .resolverCall, .wsDestroy, .noteFailed .invalidRange] := by
    rw [h_clip_inr text u t1 t2 env hp,
        clip_youtube_resolved u t1 t2 outPath env info stream hprov hres,
        clip_after_resolve_range t1 t2 outPath env stream a b h1 h2,
        if_pos hle]
    rfl
  exact ⟨ht, fun args => by rw [ht]; simp⟩

/-- Closed witness for `C2_invalid_range_after_resolution` at the
command `"/clip https://x/y 1:00 0:30"`. -/
theorem C2_invalid_range_witness :
    h_clip "/clip https://x/y 1:00 0:30"
        (mkEnv (some (mkInfo none [mkFmt (some "mp4") (some "aac") "S"])) 0 true) =
      [.noteClipping, .wsCreate, .resolverCall, .wsDestroy, .noteFailed .invalidRange] :=
  (C2_invalid_range_after_resolution "/clip https://x/y 1:00 0:30"
    "https://x/y" "1:00" "0:30" "S"
    (mkEnv (some (mkInfo none [mkFmt (some "mp4") (some "aac") "S"])) 0 true)
    (mkInfo none [mkFmt (some "mp4") (some "aac") "S"]) 60 30
    (by decide) rfl rfl (by decide) (by decide) (by decide)).1

/- ### C3 -/

/-- C3 counterexample: the claim states that when extraction succeeded
(exit status 0) and the delivery call then fails, the failure is only
logged and NOT surfaced to the user.  On the concrete request below the
extraction exits 0, delivery fails, and the trace ends with the note
being edited to a user-visible failure message — the same surfacing
path as any other request failure. -/
theorem C3_counterexample :
    h_clip "/clip https://x/y 0:30 1:00"
        (mkEnv (some (mkInfo none [mkFmt (some "mp4") (some "aac") "S"])) 0 false) =
      [.noteClipping, .wsCreate, .resolverCall,
       .ffmpegRun (ffmpegArgs "ffmpeg" 30 60 "S" outPath),
       .deliver false, .wsDestroy, .noteFailed .deliveryFailed] ∧
    Ev.noteFailed .deliveryFailed ∈ h_clip "/clip https://x/y 0:30 1:00"
        (mkEnv (some (mkInfo none [mkFmt (some "mp4") (some "aac") "S"])) 0 false) := by
  decide

/-- C3 (amended): for every request in which extraction completed
successfully but the delivery call fails, the handler's `except` arm
surfaces the failure to the user by editing the progress note to a
failure message (the final event of the trace), in addition to logging
it; the workspace is still destroyed first. -/
theorem C3_delivery_failure_surfaced (text u t1 t2 : String) (env : Env)
    (hp : parse_or_reply text = .inr (u, t1, t2))
    (hok : (clip_youtube u t1 t2 outPath env).2 = none)
    (hd : env.deliveryOk = false) :
    h_clip text env = .noteClipping :: .wsCreate ::
      (clip_youtube u t1 t2 outPath env).1 ++
      [.deliver false, .wsDestroy, .noteFailed .deliveryFailed] ∧
    (h_clip text env).getLast? = some (.noteFailed .deliveryFailed) := by
  have ht : h_clip text env = .noteClipping :: .wsCreate ::
      (clip_youtube u t1 t2 outPath env).1 ++
      [.deliver false, .wsDestroy, .noteFailed .deliveryFailed] := by
    rw [h_clip_inr text u t1 t2 env hp, hok, hd]
    rfl
  refine ⟨ht, ?_⟩
  rw [ht]
  have hsplit : Ev.noteClipping :: Ev.wsCreate ::
      (clip_youtube u t1 t2 outPath env).1 ++
      [Ev.deliver false, Ev.wsDestroy, Ev.noteFailed ClipErr.deliveryFailed] =
      (Ev.noteClipping :: Ev.wsCreate :: (clip_youtube u t1 t2 outPath env).1 ++
        [Ev.deliver false, Ev.wsDestroy]) ++ [Ev.noteFailed ClipErr.deliveryFailed] := by
    simp
  rw [hsplit, List.getLast?_concat]

/-- Closed witness for `C3_delivery_failure_surfaced` at the command
`"/clip https://x/y 0:30 1:00"` with exit status 0 and failing
delivery. -/
theorem C3_delivery_failure_witness :
    h_clip "/clip https://x/y 0:30 1:00"
        (mkEnv (some (mkInfo none [mkFmt (some "mp4") (some "aac") "S"])) 0 false) =
      .noteClipping :: .wsCreate ::
      (clip_youtube "https://x/y" "0:30" "1:00" outPath
        (mkEnv (some (mkInfo none [mkFmt (some "mp4") (some "aac") "S"])) 0 false)).1 ++
      [.deliver false, .wsDestroy, .noteFailed .deliveryFailed] :=
  (C3_delivery_failure_surfaced "/clip https://x/y 0:30 1:00"
    "https://x/y" "0:30" "1:00"
    (mkEnv (some (mkInfo none [mkFmt (some "mp4") (some "aac") "S"])) 0 false)
    (by decide) (by decide) rfl).1

/- ### C4 -/

/-- C4: on every request and every environment outcome, either the trace
contains no workspace events at all (parse failures, where no workspace
was created), or it contains exactly one workspace creation followed
later by exactly one workspace destruction — the scratch directory is
never leaked on any exit path (success, resolution failure, extraction
failure, or delivery failure). -/
theorem C4_workspace_never_leaked (text : String) (env : Env) :
    (Ev.wsCreate ∉ h_clip text env ∧ Ev.wsDestroy ∉ h_clip text env) ∨
    (∃ a b c, h_clip text env = a ++ Ev.wsCreate :: b ++ Ev.wsDestroy :: c ∧
      Ev.wsCreate ∉ a ++ b ++ c ∧ Ev.wsDestroy ∉ a ++ b ++ c) := by
  rcases hp : parse_or_reply text with f | r
  · rcases f with _ | _
    · left
      rw [h_clip_usage text env hp]
      simp
    · left
      rw [h_clip_mismatch text env hp]
      simp
  · obtain ⟨u, t1, t2⟩ := r
    right
    rw [h_clip_inr text u t1 t2 env hp]
    obtain ⟨w, z, hw, hc, hd⟩ :=
      tailEvents_shape (clip_youtube u t1 t2 outPath env).2 env.deliveryOk
    have hc1 : Ev.wsCreate ∉ w := fun h => hc (by simp [h])
    have hc2 : Ev.wsCreate ∉ z := fun h => hc (by simp [h])
    have hd1 : Ev.wsDestroy ∉ w := fun h => hd (by simp [h])
    have hd2 : Ev.wsDestroy ∉ z := fun h => hd (by simp [h])
    rw [hw]
    rcases clip_youtube_events u t1 t2 outPath env with h | ⟨ar, h⟩ <;> rw [h]
    · refine ⟨[Ev.noteClipping], Ev.resolverCall :: w, z, by simp, ?_, ?_⟩
      · simp [hc1, hc2]
      · simp [hd1, hd2]
    · refine ⟨[Ev.noteClipping], Ev.resolverCall :: Ev.ffmpegRun ar :: w, z, by simp, ?_, ?_⟩
      · simp [hc1, hc2]
      · simp [hd1, hd2]

/- ### C8 -/

/-- C8: the command parser checks arity before pattern: with fewer than
three tokens after the command keyword it replies with the usage
message and stops, with no resolver call and no workspace creation;
with three tokens that do not match the URL-plus-two-timestamps grammar
it replies with the distinct could-not-parse message; the two failure
kinds are distinguishable. -/
theorem C8_arity_before_pattern :
    (∀ (text : String) (env : Env), ((pySplit3 text).drop 1).length < 3 →
      parse_or_reply text = .inl .usage ∧ h_clip text env = [.replyUsage] ∧
      Ev.resolverCall ∉ h_clip text env ∧ Ev.wsCreate ∉ h_clip text env) ∧
    (∀ (text : String) (env : Env), 3 ≤ ((pySplit3 text).drop 1).length →
      clipMatch (String.mk (joinSp ((pySplit3 text).drop 1))) = none →
      parse_or_reply text = .inl .mismatch ∧ h_clip text env = [.replyMismatch] ∧
      Ev.resolverCall ∉ h_clip text env ∧ Ev.wsCreate ∉ h_clip text env) ∧
    ParseFail.usage ≠ ParseFail.mismatch ∧ Ev.replyUsage ≠ Ev.replyMismatch := by
  refine ⟨?_, ?_, by decide, by decide⟩
  · intro text env hlen
    have hu : parse_or_reply text = .inl .usage := by
      unfold parse_or_reply
      rw [if_pos hlen]
    have hh := h_clip_usage text env hu
    rw [hh]
    exact ⟨hu, rfl, by simp, by simp⟩
  · intro text env hlen hm
    have hu : parse_or_reply text = .inl .mismatch := by
      unfold parse_or_reply
      rw [if_neg (not_lt.mpr hlen), hm]
    have hh := h_clip_mismatch text env hu
    rw [hh]
    exact ⟨hu, rfl, by simp, by simp⟩

/-- Closed witness for `C8_arity_before_pattern`: the command
`"/clip https://x/y"` (one token after the keyword) yields the usage
reply with no resolver call; the command `"/clip a b c"` (three tokens,
grammar mismatch) yields the could-not-parse reply. -/
theorem C8_arity_before_pattern_witness :
    (parse_or_reply "/clip https://x/y" = .inl .usage ∧
      h_clip "/clip https://x/y" (mkEnv none 0 true) = [.replyUsage]) ∧
    (parse_or_reply "/clip a b c" = .inl .mismatch ∧
      h_clip "/clip a b c" (mkEnv none 0 true) = [.replyMismatch]) :=
  ⟨⟨(C8_arity_before_pattern.1 "/clip https://x/y" (mkEnv none 0 true) (by decide)).1,
    (C8_arity_before_pattern.1 "/clip https://x/y" (mkEnv none 0 true) (by decide)).2.1⟩,
   ⟨(C8_arity_before_pattern.2.1 "/clip a b c" (mkEnv none 0 true) (by decide) (by decide)).1,
    (C8_arity_before_pattern.2.1 "/clip a b c" (mkEnv none 0 true) (by decide) (by decide)).2.1⟩⟩

/- ### C9 helper lemmas -/

lemma splitCols_ne_nil (l : List Char) : splitCols l ≠ [] := by
  cases l with
  | nil => simp [splitCols]
  | cons c cs =>
    unfold splitCols
    split
    · simp
    · split <;> simp

lemma splitCols_no_colon (a : List Char) (rest : List Char)
    (h : ∀ c ∈ a, ¬(c = ':')) :
    splitCols (a ++ rest) = (a ++ (splitCols rest).headI) :: (splitCols rest).tail := by
  induction a with
  | nil =>
    rcases hs : splitCols rest with _ | ⟨hd, tl⟩
    · exact absurd hs (splitCols_ne_nil rest)
    · simp [hs]
  | cons c a ih =>
    have hc : ¬(c = ':') := h c (by simp)
    have ha : ∀ x ∈ a, ¬(x = ':') := fun x hx => h x (by simp [hx])
    rw [List.cons_append]
    simp only [splitCols]
    rw [if_neg hc, ih ha]
    simp

lemma splitCols_single (a : List Char) (h : ∀ c ∈ a, ¬(c = ':')) :
    splitCols a = [a] := by
  have := splitCols_no_colon a [] h
  simpa [splitCols] using this

lemma no_colon_of_digits {a : List Char} (h : a.all Char.isDigit = true) :
    ∀ c ∈ a, ¬(c = ':') := by
  intro c hc heq
  subst heq
  have := List.all_eq_true.mp h _ hc
  exact absurd this (by decide)

lemma isHMSL_build (A B C : List Char) (hA1 : A ≠ []) (hA2 : A.all Char.isDigit = true)
    (hB1 : B.length = 2) (hB2 : B.all Char.isDigit = true)
    (hC1 : C.length = 2) (hC2 : C.all Char.isDigit = true) :
    isHMSL (A ++ ':' :: (B ++ ':' :: C)) = true := by
  have hsplit : splitCols (A ++ ':' :: (B ++ ':' :: C)) = [A, B, C] := by
    rw [splitCols_no_colon A _ (no_colon_of_digits hA2)]
    have h1 : splitCols (':' :: (B ++ ':' :: C)) = [] :: splitCols (B ++ ':' :: C) := by
      simp [splitCols]
    rw [h1, splitCols_no_colon B _ (no_colon_of_digits hB2)]
    have h2 : splitCols (':' :: C) = [] :: splitCols C := by
      simp [splitCols]
    rw [h2, splitCols_single C (no_colon_of_digits hC2)]
    simp
  unfold isHMSL
  rw [hsplit]
  simp [hA1, hA2, hB1, hB2, hC1, hC2]

lemma toString_nat_digits : ∀ k : Nat, k < 24 →
    ((toString k).toList ≠ [] ∧ (toString k).toList.all Char.isDigit = true) := by decide

lemma two_of_nat_digits : ∀ j : Nat, j < 60 →
    ((two ((j : Int))).toList.length = 2 ∧
      (two ((j : Int))).toList.all Char.isDigit = true) := by decide

lemma toList_append (a b : String) : (a ++ b).toList = a.toList ++ b.toList := by
  cases a
  cases b
  rfl

/-- Below one day, Python's timedelta rendering is in `H:MM:SS` form. -/
lemma isHMS_timedelta (n : Int) (h0 : 0 ≤ n) (hlt : n < 86400) :
    isHMS (timedeltaStr n) = true := by
  have hd : n / 86400 = 0 := by omega
  have hm : n % 86400 = n := by omega
  unfold timedeltaStr
  rw [if_pos hd]
  unfold hmsPart
  rw [hm]
  obtain ⟨kh, ekh, hkh⟩ : ∃ k : Nat, n / 3600 = (k : Int) ∧ k < 24 :=
    ⟨(n / 3600).toNat, by omega, by omega⟩
  obtain ⟨km, ekm, hkm⟩ : ∃ k : Nat, (n % 3600) / 60 = (k : Int) ∧ k < 60 :=
    ⟨((n % 3600) / 60).toNat, by omega, by omega⟩
  obtain ⟨ks, eks, hks⟩ : ∃ k : Nat, n % 60 = (k : Int) ∧ k < 60 :=
    ⟨(n % 60).toNat, by omega, by omega⟩
  rw [ekh, ekm, eks]
  have hts : toString ((kh : Int)) = toString kh := rfl
  rw [hts]
  unfold isHMS
  have hcolon : (":" : String).toList = [':'] := rfl
  have hlist : (toString kh ++ ":" ++ two ((km : Int)) ++ ":" ++ two ((ks : Int))).toList =
      (toString kh).toList ++ ':' ::
        ((two ((km : Int))).toList ++ ':' :: (two ((ks : Int))).toList) := by
    rw [toList_append, toList_append, toList_append, toList_append, hcolon]
    simp
  rw [hlist]
  exact isHMSL_build _ _ _ (toString_nat_digits kh hkh).1 (toString_nat_digits kh hkh).2
    (two_of_nat_digits km hkm).1 (two_of_nat_digits km hkm).2
    (two_of_nat_digits ks hks).1 (two_of_nat_digits ks hks).2

/- ### C9 -/

/-- C9 counterexample: the claim states that the seek argument passed to
the trimming process is the start offset expressed in `H:MM:SS` form.
The command `"/clip https://x/y 24:00:00 24:00:01"` is grammar-valid and
range-valid (start 86400 s, end 86401 s), yet Python renders
`timedelta(seconds=86400)` as `"1 day, 0:00:00"`, which is what the
process receives after `-ss` and which is not in `H:MM:SS` form. -/
theorem C9_counterexample :
    hms_to_sec "24:00:00" = some 86400 ∧ hms_to_sec "24:00:01" = some 86401 ∧
    timeOk "24:00:00" = true ∧ timeOk "24:00:01" = true ∧
    (clip_youtube "https://x/y" "24:00:00" "24:00:01" outPath
        (mkEnv (some (mkInfo none [mkFmt (some "mp4") (some "aac") "S"])) 0 true)).1 =
      [.resolverCall, .ffmpegRun ["ffmpeg", "-hide_banner", "-loglevel", "error", "-ss",
        "1 day, 0:00:00", "-i", "S", "-t", "1", "-c", "copy", "-avoid_negative_ts",
        "make_zero", outPath]] ∧
    isHMS "1 day, 0:00:00" = false := by
  decide

/-- C9 (amended): for every validated request (tokens converted, end
after start) with a resolved stream, the code invokes the external
trimming process exactly once, blocking, with exactly the arguments:
suppressed banner and error-only log level, `-ss` followed by the start
offset rendered by Python `str(timedelta(seconds=start))` (which is the
`H:MM:SS` form exactly when the start offset is below 86400 seconds),
`-i` followed by the stream URL, `-t` followed by `end - start` in
seconds, the stream-copy codec flag, the negative-timestamp
normalization flag, and the destination path; exit status 0 succeeds
and any nonzero exit status fails the request with the extraction
error, with no second invocation. -/
theorem C9_extractor_invocation (url t1 t2 o stream : String) (env : Env)
    (info : Info) (s0 s1 : Int)
    (hprov : env.provider = some info) (hres : getStreamUrl info = .ok stream)
    (h1 : hms_to_sec t1 = some s0) (h2 : hms_to_sec t2 = some s1) (hlt : s0 < s1) :
    clip_youtube url t1 t2 o env =
      ([.resolverCall, .ffmpegRun (ffmpegArgs env.ffmpegBin s0 s1 stream o)],
        if env.ffmpegExit = 0 then none else some (.extractionFailed env.ffmpegExit)) ∧
    ffmpegArgs env.ffmpegBin s0 s1 stream o =
      [env.ffmpegBin, "-hide_banner", "-loglevel", "error", "-ss", timedeltaStr s0,
       "-i", stream, "-t", toString (s1 - s0), "-c", "copy",
       "-avoid_negative_ts", "make_zero", o] ∧
    (0 ≤ s0 → s0 < 86400 → isHMS (timedeltaStr s0) = true) ∧
    (clip_youtube url t1 t2 o env).1.count
      (Ev.ffmpegRun (ffmpegArgs env.ffmpegBin s0 s1 stream o)) = 1 := by
  have hmain : clip_youtube url t1 t2 o env =
      ([.resolverCall, .ffmpegRun (ffmpegArgs env.ffmpegBin s0 s1 stream o)],
        if env.ffmpegExit = 0 then none else some (.extractionFailed env.ffmpegExit)) := by
    rw [clip_youtube_resolved url t1 t2 o env info stream hprov hres,
        clip_after_resolve_range t1 t2 o env stream s0 s1 h1 h2,
        if_neg (not_le.mpr hlt)]
    by_cases he : env.ffmpegExit = 0
    · rw [if_pos he, if_pos he]
    · rw [if_neg he, if_neg he]
  refine ⟨hmain, rfl, fun ha hb => isHMS_timedelta s0 ha hb, ?_⟩
  rw [hmain]
  simp [List.count_cons]

/-- Closed witness for `C9_extractor_invocation` at the request
`[0:30, 1:00]` of `"https://x/y"` with a resolved stream `"S"` and exit
status 0. -/
theorem C9_extractor_invocation_witness :
    clip_youtube "https://x/y" "0:30" "1:00" outPath
        (mkEnv (some (mkInfo none [mkFmt (some "mp4") (some "aac") "S"])) 0 true) =
      ([.resolverCall, .ffmpegRun (ffmpegArgs "ffmpeg" 30 60 "S" outPath)], none) ∧
    isHMS (timedeltaStr 30) = true :=
  have h := C9_extractor_invocation "https://x/y" "0:30" "1:00" outPath "S"
    (mkEnv (some (mkInfo none [mkFmt (some "mp4") (some "aac") "S"])) 0 true)
    (mkInfo none [mkFmt (some "mp4") (some "aac") "S"]) 30 60
    rfl rfl (by decide) (by decide) (by decide)
  ⟨h.1, h.2.2.1 (by decide) (by decide)⟩

end Bot
